import Mathlib

/-! Verification development for the `mastodon_follow_like_bot` repository.

The Python sources (`src/mastodon_bot.py`, `src/web_ui.py`) are shallowly
embedded: dict-shaped records become structures, Python sets of id strings
become lists managed with an insert-if-absent helper, the JSON dedup files
become an explicit `FileState` value, and the remote Mastodon API becomes an
explicit environment of response functions.  Remote calls that the bot
attempts are recorded in an `Action` trace, so that theorems can speak about
which remote actions a phase performs. -/

namespace MastodonBot

/-- Python truthiness of an optional string: `None` and `""` are falsy,
every other string is truthy.  Used wherever the source tests a
possibly-missing string field such as `status.get('in_reply_to_id')` or
`os.getenv(...)`. -/
def truthyStr : Option String → Bool
  | none => false
  | some s => !(s == "")

/-! ### JSON values and the on-disk dedup files

`_load_processed_posts` / `_load_liked_posts` / `_load_followed_accounts`
open a JSON file and run `set(data.get(key, []))`; `_save_*` write
`json.dump({key: list(se)}, f)`.  We model the file contents as either
missing, syntactically invalid JSON (where `json.load` raises
`json.JSONDecodeError`, the only exception the loaders catch), or a parsed
JSON value.  Python hashable JSON leaves (the only things a `set` can hold)
are modelled by `JScalar`. -/

inductive JScalar where
  | snull : JScalar
  | sbool : Bool → JScalar
  | snum : Int → JScalar
  | sstr : String → JScalar
deriving DecidableEq, Repr

inductive JsonVal where
  | scalar : JScalar → JsonVal
  | jarr : List JsonVal → JsonVal
  | jobj : List (String × JsonVal) → JsonVal

inductive FileState where
  | missing : FileState
  | invalid : FileState
  | valid : JsonVal → FileState

/-- Python exceptions that the loaders can hit besides `JSONDecodeError`
(which is represented by `FileState.invalid` and is caught). -/
inductive PyErr where
  | attributeError : PyErr
  | typeError : PyErr
deriving DecidableEq, Repr

/-- Python `data.get(key, default)`: succeeds only on a dict (`jobj`); on any other
value Python raises `AttributeError` (there is no `.get` method).  JSON
object parsing keeps the last binding of a duplicated key, hence the
`reverse`. -/
def dictGet (v : JsonVal) (key : String) (dflt : JsonVal) : Except PyErr JsonVal :=
  match v with
  | JsonVal.jobj fields =>
      match fields.reverse.find? (fun p => p.1 == key) with
      | some p => Except.ok p.2
      | none => Except.ok dflt
  | _ => Except.error PyErr.attributeError

/-- An element of a Python list is usable in a `set` only when hashable,
i.e. a scalar; lists and dicts raise `TypeError`. -/
def hashableElem : JsonVal → Except PyErr JScalar
  | JsonVal.scalar a => Except.ok a
  | _ => Except.error PyErr.typeError

/-- Python `set(x)` on a JSON value: a list yields the set of its (hashable)
elements, a string yields its characters, a dict yields its keys, and
non-iterable scalars raise `TypeError`. -/
def pySet (v : JsonVal) : Except PyErr (Finset JScalar) :=
  match v with
  | JsonVal.scalar (JScalar.sstr s) =>
      Except.ok (s.data.map (fun c => JScalar.sstr (String.singleton c))).toFinset
  | JsonVal.scalar _ => Except.error PyErr.typeError
  | JsonVal.jarr elems =>
      match elems.mapM hashableElem with
      | Except.ok scalars => Except.ok scalars.toFinset
      | Except.error e => Except.error e
  | JsonVal.jobj fields =>
      Except.ok (fields.map (fun p => JScalar.sstr p.1)).toFinset

/-- The loader pattern of `_load_liked_posts` (and its two siblings): if the
file is missing the in-memory set is left as it was (`prior`; empty at
startup), a `json.JSONDecodeError` is caught and yields the empty set, and
otherwise the code runs `set(data.get(key, []))`, whose Python exceptions
propagate. -/
def loadDedup (file : FileState) (key : String) (prior : Finset JScalar) :
    Except PyErr (Finset JScalar) :=
  match file with
  | FileState.missing => Except.ok prior
  | FileState.invalid => Except.ok ∅
  | FileState.valid v =>
      match dictGet v key (JsonVal.jarr []) with
      | Except.ok arr => pySet arr
      | Except.error e => Except.error e

/-- Models `_save_liked_posts` and siblings: `json.dump({key: list(se)}, f)`, where
`ids` is the enumeration `list(se)` of the in-memory set. -/
def saveDedup (key : String) (ids : List String) : FileState :=
  FileState.valid (JsonVal.jobj
    [(key, JsonVal.jarr (ids.map (fun s => JsonVal.scalar (JScalar.sstr s))))])

/-! ### Data model: statuses and rules -/

/-- The fields of a Mastodon status record that the bot's logic reads.
`in_reply_to_id` is the optional reply parent, `reblog` records whether the
status wraps a reblog (the `reblog` field is truthy), `media_attachments`
the attachment list, `tags` the hashtag names (`tag['name']` of each entry).
Fields used only for log messages (`account.acct`, `content`) are omitted. -/
structure Status where
  id : String
  in_reply_to_id : Option String := none
  reblog : Bool := false
  media_attachments : List String := []
  tags : List String := []
deriving DecidableEq, Repr

/-- A per-account like rule, one entry of the `likes` configuration list.
Missing keys default to falsy values exactly as `like_config.get(...)`
does. -/
structure LikeRule where
  account : String
  like_everything : Bool := false
  exclude_replies : Bool := false
  require_media : Bool := false
  hashtags : List String := []
deriving DecidableEq, Repr

/-- The repost-phase flags read from `config['bot']` at startup. -/
structure RepostFlags where
  exclude_replies : Bool := false
  exclude_reblogs : Bool := false
  boost_only : Bool := false
deriving DecidableEq, Repr

/-! ### Filter engine -/

/-- Embeds `_should_repost`. -/
def should_repost (flags : RepostFlags) (status : Status) : Bool :=
  if flags.exclude_replies && truthyStr status.in_reply_to_id then false
  else if flags.exclude_reblogs && status.reblog then false
  else if flags.boost_only && status.media_attachments.isEmpty then false
  else true

/-- Python's `str.lower()` on a tag: lower-case every character. -/
def pyLower (s : String) : String :=
  String.mk (s.data.map Char.toLower)

/-- Python's `str.strip()`: drop leading and trailing whitespace. -/
def pyStrip (s : String) : String :=
  String.mk (((s.data.dropWhile Char.isWhitespace).reverse.dropWhile Char.isWhitespace).reverse)

/-- Embeds `_extract_hashtags`: the set of lower-cased tag names of a status. -/
def extract_hashtags (status : Status) : Finset String :=
  (status.tags.map pyLower).toFinset

/-- The hashtag filter inside `_should_like`:
`any(tag.lower() in status_hashtags for tag in required_hashtags)`. -/
def hashtagMatch (required_hashtags : List String) (status : Status) : Bool :=
  required_hashtags.any (fun tag => decide (pyLower tag ∈ extract_hashtags status))

/-- Embeds `_should_like`. -/
def should_like (status : Status) (like_config : LikeRule) : Bool :=
  if like_config.like_everything then true
  else if like_config.exclude_replies && truthyStr status.in_reply_to_id then false
  else if like_config.require_media && status.media_attachments.isEmpty then false
  else if !like_config.hashtags.isEmpty && !hashtagMatch like_config.hashtags status then
    false
  else true

/-! ### Bot state, remote environment, and action traces -/

/-- A remote call attempted by the bot (issued whether or not the call
succeeds). -/
inductive Action where
  | reblogA (id : String)
  | favA (id : String)
  | followA (id : String)
deriving DecidableEq, Repr

/-- One entry of an `account_followers` listing. -/
structure Follower where
  id : String
  acct : String
deriving DecidableEq, Repr

/-- The mutable bot state: the three in-memory dedup sets (Python sets of id
strings, modelled as duplicate-free lists) together with the current
contents of their three persisted files. -/
structure BotState where
  processed_posts : List String
  liked_posts : List String
  followed_accounts : List String
  processed_file : FileState
  liked_file : FileState
  followed_file : FileState

/-- Python `set.add`: insert the id if it is not already a member. -/
def pySetAdd (x : String) (l : List String) : List String :=
  if x ∈ l then l else x :: l

/-- The remote Mastodon API as seen by the bot.  `account_search` collapses
`_get_account_id` (first search result, or `None` on an empty result or an
`MastodonAPIError`).  `account_statuses` takes the account id and the
`exclude_replies` / `exclude_reblogs` parameters and either returns the
listing or fails.  The three `..Ok` predicates say whether a reblog /
favourite / follow call on the given id succeeds or raises
`MastodonAPIError`. -/
structure Env where
  account_search : String → Option String
  account_statuses : String → Bool → Bool → Except Unit (List Status)
  reblogOk : String → Bool
  favOk : String → Bool
  followOk : String → Bool

/-- Embeds `_repost_status`: skip ids already in the processed set, skip statuses
failing `_should_repost`, otherwise attempt the reblog; on success record
the id and persist immediately.  Returns the new state, whether a repost
happened, and the attempted remote calls. -/
def repost_status (env : Env) (flags : RepostFlags) (st : BotState) (status : Status) :
    BotState × Bool × List Action :=
  let status_id := status.id
  if status_id ∈ st.processed_posts then (st, false, [])
  else if !should_repost flags status then (st, false, [])
  else if env.reblogOk status_id then
    let posts := pySetAdd status_id st.processed_posts
    ({ st with processed_posts := posts, processed_file := saveDedup "posts" posts },
      true, [Action.reblogA status_id])
  else (st, false, [Action.reblogA status_id])

/-- Embeds `_like_status`: skip ids already in the liked set, otherwise attempt the
favourite; on success record the id and persist immediately. -/
def like_status (env : Env) (st : BotState) (status : Status) :
    BotState × Bool × List Action :=
  let status_id := status.id
  if status_id ∈ st.liked_posts then (st, false, [])
  else if env.favOk status_id then
    let posts := pySetAdd status_id st.liked_posts
    ({ st with liked_posts := posts, liked_file := saveDedup "posts" posts },
      true, [Action.favA status_id])
  else (st, false, [Action.favA status_id])

/-- The body of the follower loop in `check_follow_back`: skip accounts
already in the followed set, otherwise attempt the follow; on success
record the id and persist. -/
def follow_step (env : Env) (st : BotState) (follower : Follower) :
    BotState × List Action :=
  let account_id := follower.id
  if account_id ∈ st.followed_accounts then (st, [])
  else if env.followOk account_id then
    let accounts := pySetAdd account_id st.followed_accounts
    ({ st with followed_accounts := accounts,
               followed_file := saveDedup "accounts" accounts },
      [Action.followA account_id])
  else (st, [Action.followA account_id])

/-! ### Poll-cycle phases -/

/-- The inner status loop of `check_new_posts`. -/
def repost_statuses_loop (env : Env) (flags : RepostFlags) :
    List Status → BotState → List Action → BotState × List Action
  | [], st, acts => (st, acts)
  | status :: rest, st, acts =>
      let r := repost_status env flags st status
      repost_statuses_loop env flags rest r.1 (acts ++ r.2.2)

/-- Embeds `check_new_posts`: for each monitored handle resolve the account id
(skip the handle on failure), fetch its recent statuses (skip the handle on
an API error), and run `_repost_status` on each status. -/
def check_new_posts (env : Env) (flags : RepostFlags) :
    List String → BotState → BotState × List Action
  | [], st => (st, [])
  | handle :: rest, st =>
      match env.account_search handle with
      | none => check_new_posts env flags rest st
      | some account_id =>
          match env.account_statuses account_id flags.exclude_replies flags.exclude_reblogs with
          | Except.error _ => check_new_posts env flags rest st
          | Except.ok statuses =>
              let r := repost_statuses_loop env flags statuses st []
              let r2 := check_new_posts env flags rest r.1
              (r2.1, r.2 ++ r2.2)

/-- The inner status loop of `check_likes`: stop once the global counter
reaches the quota, otherwise like each status passing `_should_like`,
counting only successful favourites. -/
def check_likes_statuses (env : Env) (maxLikes : Nat) (rule : LikeRule) :
    List Status → BotState → Nat → List Action → BotState × Nat × List Action
  | [], st, c, acts => (st, c, acts)
  | status :: rest, st, c, acts =>
      if maxLikes ≤ c then (st, c, acts)
      else if should_like status rule then
        let r := like_status env st status
        check_likes_statuses env maxLikes rule rest r.1
          (if r.2.1 then c + 1 else c) (acts ++ r.2.2)
      else check_likes_statuses env maxLikes rule rest st c acts

/-- The account loop of `check_likes`: resolve each rule's account (skip the
rule on failure), break the whole phase once the counter has reached the
quota, fetch the account's statuses (skip the rule on an API error), and
run the status loop. -/
def check_likes_accounts (env : Env) (maxLikes : Nat) :
    List LikeRule → BotState → Nat → List Action → BotState × Nat × List Action
  | [], st, c, acts => (st, c, acts)
  | rule :: rest, st, c, acts =>
      match env.account_search rule.account with
      | none => check_likes_accounts env maxLikes rest st c acts
      | some account_id =>
          if maxLikes ≤ c then (st, c, acts)
          else
            match env.account_statuses account_id rule.exclude_replies false with
            | Except.error _ => check_likes_accounts env maxLikes rest st c acts
            | Except.ok statuses =>
                let r := check_likes_statuses env maxLikes rule statuses st c acts
                check_likes_accounts env maxLikes rest r.1 r.2.1 r.2.2

/-- Embeds `check_likes`: returns the final state, the number of likes performed in
this pass, and the attempted remote calls. -/
def check_likes (env : Env) (maxLikes : Nat) (likeRules : List LikeRule) (st : BotState) :
    BotState × Nat × List Action :=
  if likeRules.isEmpty then (st, 0, [])
  else check_likes_accounts env maxLikes likeRules st 0 []

/-- The number of favourite calls in a trace. -/
def favCount (acts : List Action) : Nat :=
  (acts.filter (fun a => match a with | Action.favA _ => true | _ => false)).length

/-! ### Startup: `_init_mastodon` -/

/-- The two environment variables read by `_init_mastodon` (`None` when
unset). -/
structure EnvVars where
  mastodon_access_token : Option String
  mastodon_instance_url : Option String
deriving DecidableEq, Repr

/-- The `mastodon` section of the bot's YAML config file; `none` fields are
absent keys.  The two token fields are carried so theorems can speak about
them; `_init_mastodon` never reads them. -/
structure MastodonSection where
  instance_url : Option String := none
  access_token : Option String := none
  access_token_encrypted : Option String := none
deriving DecidableEq, Repr

/-- The slice of the bot's config file that `_init_mastodon` can see:
whether a `mastodon` section exists and its contents. -/
structure BotFileConfig where
  mastodon : Option MastodonSection := none
deriving DecidableEq, Repr

/-- The instance-URL resolution of `_init_mastodon`: the environment
variable wins when truthy; otherwise
`config['mastodon'].get('instance_url', 'https://mastodon.social')` when a
`mastodon` section exists, else the hard-coded default. -/
def resolve_instance_url (ev : EnvVars) (cfg : BotFileConfig) : String :=
  if truthyStr ev.mastodon_instance_url then ev.mastodon_instance_url.getD ""
  else
    match cfg.mastodon with
    | some m => m.instance_url.getD "https://mastodon.social"
    | none => "https://mastodon.social"

/-- Embeds `_init_mastodon`: raises `ValueError` (`Except.error`) when the access
token environment variable is unset or empty; otherwise returns the token
and instance URL the client is built with.  The config file's stored token
fields are never consulted. -/
def init_mastodon (ev : EnvVars) (cfg : BotFileConfig) : Except Unit (String × String) :=
  match ev.mastodon_access_token with
  | none => Except.error ()
  | some tok =>
      if tok == "" then Except.error ()
      else Except.ok (tok, resolve_instance_url ev cfg)

/-! ### Web UI: configuration routes (`src/web_ui.py`) -/

/-- The `mastodon` section as the web UI reads and writes it.  `token_valid`
is `none` when the key is absent (falsy, like an explicit `false`). -/
structure WebMastodon where
  instance_url : Option String := none
  access_token : Option String := none
  access_token_encrypted : Option String := none
  token_valid : Option Bool := none
deriving DecidableEq, Repr

/-- The configuration file as the web UI reads and writes it. -/
structure WebConfig where
  mastodon : Option WebMastodon := none
  accounts_to_monitor : List String := []
  likes : List LikeRule := []
deriving DecidableEq, Repr

/-- Python truthiness of the optional `token_valid` entry. -/
def truthyBool : Option Bool → Bool
  | none => false
  | some b => b

/-- Python `config.get("mastodon", \x7b\x7d)`. -/
def mastodonSection (cfg : WebConfig) : WebMastodon :=
  cfg.mastodon.getD {}

/-- Embeds `_get_instance_url`: empty string when the section or key is absent. -/
def get_instance_url (cfg : WebConfig) : String :=
  (mastodonSection cfg).instance_url.getD ""

/-- Keep the first occurrence of each element, dropping later duplicates
(the `seen` loop of `_normalize_accounts`). -/
def dedupKeepFirst (seen : List String) : List String → List String
  | [] => []
  | a :: rest =>
      if a ∈ seen then dedupKeepFirst seen rest
      else a :: dedupKeepFirst (a :: seen) rest

/-- Embeds `_normalize_accounts`: split into lines, strip, drop empties, drop
duplicates keeping first occurrences. -/
def normalize_accounts (text : String) : List String :=
  let lines := (text.splitOn "\n").map pyStrip
  let accounts := lines.filter (fun l => !(l == ""))
  dedupKeepFirst [] accounts

/-- Each route returns the (possibly unchanged) configuration and whether it
saved; `false` means a redirect with an error and no `_save_config` call. -/
def save_instance (cfg : WebConfig) (form_instance_url : String) : WebConfig × Bool :=
  if pyStrip form_instance_url == "" then (cfg, false)
  else
    let m := mastodonSection cfg
    let m2 := { m with instance_url := some (pyStrip form_instance_url),
                       token_valid := some false }
    ({ cfg with mastodon := some m2 }, true)

/-- Embeds `save_token`: reject an empty token, reject when validation against the
configured instance fails, fail (caught, config unchanged) when encryption
raises, otherwise store the encrypted token, drop a legacy plain token, and
mark `token_valid`.  `validate` abstracts `_validate_token` and `enc` a
successful `_encrypt_token` (`encOk = false` models its `RuntimeError`). -/
def save_token (validate : String → String → Bool) (encOk : Bool) (enc : String → String)
    (cfg : WebConfig) (form_token : String) : WebConfig × Bool :=
  if pyStrip form_token == "" then (cfg, false)
  else if !validate (get_instance_url cfg) (pyStrip form_token) then (cfg, false)
  else if !encOk then (cfg, false)
  else
    let m := mastodonSection cfg
    let m2 := { m with access_token_encrypted := some (enc (pyStrip form_token)),
                       access_token := none, token_valid := some true }
    ({ cfg with mastodon := some m2 }, true)

/-- The form fields of the `save-accounts` route (`none` when the key is not
in the submitted form). -/
structure AccountsForm where
  boost_accounts : Option String := none
  like_accounts : Option String := none
deriving DecidableEq, Repr

/-- Rebuild the `likes` list for a submitted account list: keep the existing
rule dict for a known account (later duplicates in the old list win, and
entries without a truthy `account` are ignored), and create a fresh
`like_everything` rule for a new account. -/
def mergeLikes (old : List LikeRule) (accounts : List String) : List LikeRule :=
  accounts.map (fun a =>
    match ((old.filter (fun r => !(r.account == ""))).reverse.find?
        (fun r => r.account == a)) with
    | some r => { r with account := a }
    | none => { account := a, like_everything := true })

/-- Embeds `save_accounts`: gated on a truthy `mastodon.instance_url` and a truthy
`mastodon.token_valid`; when the gate fails the config is left unchanged
and nothing is saved. -/
def save_accounts (cfg : WebConfig) (form : AccountsForm) : WebConfig × Bool :=
  let m := mastodonSection cfg
  if !(truthyStr m.instance_url && truthyBool m.token_valid) then (cfg, false)
  else
    let cfg1 :=
      match form.boost_accounts with
      | none => cfg
      | some text => { cfg with accounts_to_monitor := normalize_accounts text }
    let cfg2 :=
      match form.like_accounts with
      | none => cfg1
      | some text => { cfg1 with likes := mergeLikes cfg.likes (normalize_accounts text) }
    (cfg2, true)

/-! ### Helper lemmas -/

/-- The hashtag filter succeeds exactly when the lower-cased rule tags and
the lower-cased status tags intersect. -/
lemma hashtagMatch_iff (req : List String) (s : Status) :
    hashtagMatch req s = true ↔
      ((req.map pyLower).toFinset ∩ extract_hashtags s).Nonempty := by
  unfold hashtagMatch
  rw [List.any_eq_true]
  constructor
  · rintro ⟨tag, htag, h⟩
    exact ⟨pyLower tag, Finset.mem_inter.2
      ⟨List.mem_toFinset.2 (List.mem_map_of_mem _ htag), of_decide_eq_true h⟩⟩
  · rintro ⟨x, hx⟩
    rcases Finset.mem_inter.1 hx with ⟨h1, h2⟩
    rcases List.mem_map.1 (List.mem_toFinset.1 h1) with ⟨tag, htag, rfl⟩
    exact ⟨tag, htag, decide_eq_true h2⟩

/-! ### C1: `_should_like` characterization -/

/-- C1: for every status and like rule, `_should_like` returns `true`
immediately when `like_everything` is set; otherwise it returns `false`
when `exclude_replies` is set and the status has a reply parent, `false`
when `require_media` is set and the status has no media attachments,
`false` when the rule's hashtag list is non-empty and the lower-cased tag
sets do not intersect, and `true` otherwise; in particular a rule with no
flags and no hashtags accepts every status. -/
theorem should_like_characterization :
    (∀ (s : Status) (r : LikeRule),
      should_like s r = true ↔
        (r.like_everything = true ∨
          (¬(r.exclude_replies = true ∧ truthyStr s.in_reply_to_id = true) ∧
           ¬(r.require_media = true ∧ s.media_attachments = []) ∧
           (r.hashtags = [] ∨
             ((r.hashtags.map pyLower).toFinset ∩ extract_hashtags s).Nonempty))))
    ∧ (∀ (s : Status) (a : String), should_like s { account := a } = true) := by
  constructor
  · intro s r
    unfold should_like
    by_cases hne : ((r.hashtags.map pyLower).toFinset ∩ extract_hashtags s).Nonempty
    · have hmb : hashtagMatch r.hashtags s = true := (hashtagMatch_iff _ _).2 hne
      cases hle : r.like_everything <;>
        cases her : r.exclude_replies <;>
          cases htr : truthyStr s.in_reply_to_id <;>
            cases hrm : r.require_media <;>
              simp_all [List.isEmpty_iff]
    · have hmb : hashtagMatch r.hashtags s = false :=
        Bool.eq_false_iff.2 (fun h => hne ((hashtagMatch_iff _ _).1 h))
      cases hle : r.like_everything <;>
        cases her : r.exclude_replies <;>
          cases htr : truthyStr s.in_reply_to_id <;>
            cases hrm : r.require_media <;>
              simp_all [List.isEmpty_iff]
  · intro s a
    simp [should_like]

/-- Witness for `should_like_characterization` at a concrete status and an
empty rule. -/
theorem should_like_characterization_witness :
    should_like { id := "w0" } { account := "acc@x" } = true :=
  should_like_characterization.2 { id := "w0" } "acc@x"

/-! ### C2: `_should_repost` characterization -/

/-- C2: `_should_repost` returns `false` exactly when some enabled exclusion
condition matches the status (`exclude_replies` with a reply parent,
`exclude_reblogs` with a wrapped reblog, or `boost_only` with no media
attachments), and returns `true` when none match. -/
theorem should_repost_characterization :
    ∀ (flags : RepostFlags) (s : Status),
      (should_repost flags s = false ↔
        ((flags.exclude_replies = true ∧ truthyStr s.in_reply_to_id = true) ∨
         (flags.exclude_reblogs = true ∧ s.reblog = true) ∨
         (flags.boost_only = true ∧ s.media_attachments = []))) ∧
      (¬((flags.exclude_replies = true ∧ truthyStr s.in_reply_to_id = true) ∨
         (flags.exclude_reblogs = true ∧ s.reblog = true) ∨
         (flags.boost_only = true ∧ s.media_attachments = [])) →
        should_repost flags s = true) := by
  intro flags s
  have h1 : should_repost flags s = false ↔
      ((flags.exclude_replies = true ∧ truthyStr s.in_reply_to_id = true) ∨
       (flags.exclude_reblogs = true ∧ s.reblog = true) ∨
       (flags.boost_only = true ∧ s.media_attachments = [])) := by
    unfold should_repost
    cases her : flags.exclude_replies <;>
      cases htr : truthyStr s.in_reply_to_id <;>
        cases hrb : flags.exclude_reblogs <;>
          cases hsr : s.reblog <;>
            cases hbo : flags.boost_only <;>
              simp_all [List.isEmpty_iff]
  refine ⟨h1, fun h => ?_⟩
  cases hval : should_repost flags s
  · exact absurd (h1.1 hval) h
  · rfl

/-- Witness for the `true`-direction of `should_repost_characterization` at
a concrete flag set and status with no matching exclusion. -/
theorem should_repost_characterization_witness :
    should_repost { exclude_replies := true } { id := "w1", reblog := true } = true :=
  (should_repost_characterization { exclude_replies := true }
    { id := "w1", reblog := true }).2 (by decide)

/-! ### C8: case-insensitive exact hashtag matching -/

/-- C8: `_should_like`'s hashtag matching is case-insensitive exact set
intersection.  Changing the letter case of any rule hashtag or status tag
(keeping everything else fixed) does not change the result; a rule
requiring `["Rust"]` matches a status tagged `rust`; and the hashtag gate
passes exactly when some rule hashtag equals some status tag up to letter
case — never by partial or substring overlap. -/
theorem hashtag_case_insensitive :
    (∀ (s s2 : Status) (r r2 : LikeRule),
      s.in_reply_to_id = s2.in_reply_to_id →
      s.media_attachments = s2.media_attachments →
      s.tags.map pyLower = s2.tags.map pyLower →
      r.like_everything = r2.like_everything →
      r.exclude_replies = r2.exclude_replies →
      r.require_media = r2.require_media →
      r.hashtags.map pyLower = r2.hashtags.map pyLower →
      should_like s r = should_like s2 r2)
    ∧ should_like { id := "p1", tags := ["rust"] }
        { account := "a@x", hashtags := ["Rust"] } = true
    ∧ (∀ (req : List String) (s : Status),
      hashtagMatch req s = true ↔
        ∃ t ∈ req, ∃ u ∈ s.tags, pyLower t = pyLower u) := by
  refine ⟨?_, by decide, ?_⟩
  · intro s s2 r r2 hrep hmed htags hle her hrm hht
    have hext : extract_hashtags s = extract_hashtags s2 := by
      unfold extract_hashtags
      rw [htags]
    have hany : ∀ (req : List String) (E : Finset String),
        req.any (fun tag => decide (pyLower tag ∈ E)) =
          (req.map pyLower).any (fun x => decide (x ∈ E)) := by
      intro req E
      rw [List.any_map]
      rfl
    have hmatch : hashtagMatch r.hashtags s = hashtagMatch r2.hashtags s2 := by
      unfold hashtagMatch
      rw [hext, hany, hany, hht]
    have hempty : r.hashtags.isEmpty = r2.hashtags.isEmpty := by
      cases hc : r.hashtags <;> cases hc2 : r2.hashtags <;> simp_all
    unfold should_like
    rw [hle, her, hrm, hrep, hmed, hempty, hmatch]
  · intro req s
    unfold hashtagMatch extract_hashtags
    rw [List.any_eq_true]
    constructor
    · rintro ⟨t, ht, hdec⟩
      rcases List.mem_map.1 (List.mem_toFinset.1 (of_decide_eq_true hdec)) with ⟨u, hu, huEq⟩
      exact ⟨t, ht, u, hu, huEq.symm⟩
    · rintro ⟨t, ht, u, hu, hEq⟩
      exact ⟨t, ht, decide_eq_true
        (List.mem_toFinset.2 (List.mem_map.2 ⟨u, hu, hEq.symm⟩))⟩

/-- Witness for the case-invariance part of `hashtag_case_insensitive`:
upper-casing both the status tag and the rule hashtag leaves the decision
unchanged. -/
theorem hashtag_case_insensitive_witness :
    should_like { id := "p1", tags := ["RUST"] } { account := "a@x", hashtags := ["LEAN"] } =
      should_like { id := "p2", tags := ["rust"] } { account := "b@x", hashtags := ["lean"] } :=
  hashtag_case_insensitive.1
    { id := "p1", tags := ["RUST"] } { id := "p2", tags := ["rust"] }
    { account := "a@x", hashtags := ["LEAN"] } { account := "b@x", hashtags := ["lean"] }
    rfl rfl (by decide) rfl rfl rfl (by decide)

/-! ### C4: dedup sets make re-processing a no-op -/

/-- C4: an id already present in the corresponding dedup set causes the
matching phase step to perform no remote action and to leave the whole bot
state — in-memory set and persisted file alike — unchanged. -/
theorem dedup_sets_idempotent :
    ∀ (env : Env) (flags : RepostFlags) (st : BotState) (status : Status) (fol : Follower),
      (status.id ∈ st.processed_posts →
        repost_status env flags st status = (st, false, [])) ∧
      (status.id ∈ st.liked_posts →
        like_status env st status = (st, false, [])) ∧
      (fol.id ∈ st.followed_accounts →
        follow_step env st fol = (st, [])) := by
  intro env flags st status fol
  refine ⟨fun h => ?_, fun h => ?_, fun h => ?_⟩
  · simp [repost_status, h]
  · simp [like_status, h]
  · simp [follow_step, h]

/-- Witness for `dedup_sets_idempotent` at a concrete state whose three
sets already contain the incoming ids. -/
theorem dedup_sets_idempotent_witness :
    repost_status
        { account_search := fun _ => none, account_statuses := fun _ _ _ => Except.ok [],
          reblogOk := fun _ => true, favOk := fun _ => true, followOk := fun _ => true }
        {} { processed_posts := ["p"], liked_posts := ["p"], followed_accounts := ["f"],
             processed_file := FileState.missing, liked_file := FileState.missing,
             followed_file := FileState.missing } { id := "p" } =
      ({ processed_posts := ["p"], liked_posts := ["p"], followed_accounts := ["f"],
         processed_file := FileState.missing, liked_file := FileState.missing,
         followed_file := FileState.missing }, false, []) ∧
    like_status
        { account_search := fun _ => none, account_statuses := fun _ _ _ => Except.ok [],
          reblogOk := fun _ => true, favOk := fun _ => true, followOk := fun _ => true }
        { processed_posts := ["p"], liked_posts := ["p"], followed_accounts := ["f"],
          processed_file := FileState.missing, liked_file := FileState.missing,
          followed_file := FileState.missing } { id := "p" } =
      ({ processed_posts := ["p"], liked_posts := ["p"], followed_accounts := ["f"],
         processed_file := FileState.missing, liked_file := FileState.missing,
         followed_file := FileState.missing }, false, []) ∧
    follow_step
        { account_search := fun _ => none, account_statuses := fun _ _ _ => Except.ok [],
          reblogOk := fun _ => true, favOk := fun _ => true, followOk := fun _ => true }
        { processed_posts := ["p"], liked_posts := ["p"], followed_accounts := ["f"],
          processed_file := FileState.missing, liked_file := FileState.missing,
          followed_file := FileState.missing } { id := "f", acct := "f@x" } =
      ({ processed_posts := ["p"], liked_posts := ["p"], followed_accounts := ["f"],
         processed_file := FileState.missing, liked_file := FileState.missing,
         followed_file := FileState.missing }, []) :=
  ⟨(dedup_sets_idempotent _ _ _ _ { id := "f", acct := "f@x" }).1 (by decide),
   (dedup_sets_idempotent _ {} _ _ { id := "f", acct := "f@x" }).2.1 (by decide),
   (dedup_sets_idempotent _ {} _ { id := "p" } _).2.2 (by decide)⟩

/-! ### C6: remote failures are isolated -/

/-- C6: a failing remote call (reblog, favourite, follow, account
resolution, or status fetch) is absorbed locally: the failed action leaves
the bot state — dedup sets and persisted files — unchanged and records no
id, and a failing account resolution or status fetch makes the repost
phase continue with the remaining handles exactly as if the failed handle
were absent.  The phase functions are total, so no remote failure aborts a
cycle. -/
theorem remote_failure_isolated :
    ∀ (env : Env) (flags : RepostFlags) (st : BotState) (status : Status) (fol : Follower)
      (handle : String) (handles : List String),
      (env.reblogOk status.id = false →
        (repost_status env flags st status).1 = st ∧
        (repost_status env flags st status).2.1 = false) ∧
      (env.favOk status.id = false →
        (like_status env st status).1 = st ∧
        (like_status env st status).2.1 = false) ∧
      (env.followOk fol.id = false → (follow_step env st fol).1 = st) ∧
      (env.account_search handle = none →
        check_new_posts env flags (handle :: handles) st =
          check_new_posts env flags handles st) ∧
      (∀ account_id, env.account_search handle = some account_id →
        env.account_statuses account_id flags.exclude_replies flags.exclude_reblogs =
          Except.error () →
        check_new_posts env flags (handle :: handles) st =
          check_new_posts env flags handles st) := by
  intro env flags st status fol handle handles
  refine ⟨fun h => ?_, fun h => ?_, fun h => ?_, fun h => ?_, fun aid h1 h2 => ?_⟩
  · by_cases hmem : status.id ∈ st.processed_posts <;>
      by_cases hsr : should_repost flags status <;>
        simp [repost_status, h, hmem, hsr]
  · by_cases hmem : status.id ∈ st.liked_posts <;> simp [like_status, h, hmem]
  · by_cases hmem : fol.id ∈ st.followed_accounts <;> simp [follow_step, h, hmem]
  · simp [check_new_posts, h]
  · simp [check_new_posts, h1, h2]

/-- Witness for `remote_failure_isolated`: one environment where every
remote action fails and resolution returns nothing, and one where
resolution succeeds but the status fetch raises. -/
theorem remote_failure_isolated_witness :
    ((repost_status
        { account_search := fun _ => none, account_statuses := fun _ _ _ => Except.error (),
          reblogOk := fun _ => false, favOk := fun _ => false, followOk := fun _ => false }
        {} { processed_posts := [], liked_posts := [], followed_accounts := [],
             processed_file := FileState.missing, liked_file := FileState.missing,
             followed_file := FileState.missing } { id := "p" }).1 =
      { processed_posts := [], liked_posts := [], followed_accounts := [],
        processed_file := FileState.missing, liked_file := FileState.missing,
        followed_file := FileState.missing }) ∧
    ((like_status
        { account_search := fun _ => none, account_statuses := fun _ _ _ => Except.error (),
          reblogOk := fun _ => false, favOk := fun _ => false, followOk := fun _ => false }
        { processed_posts := [], liked_posts := [], followed_accounts := [],
          processed_file := FileState.missing, liked_file := FileState.missing,
          followed_file := FileState.missing } { id := "p" }).1 =
      { processed_posts := [], liked_posts := [], followed_accounts := [],
        processed_file := FileState.missing, liked_file := FileState.missing,
        followed_file := FileState.missing }) ∧
    (check_new_posts
        { account_search := fun _ => none, account_statuses := fun _ _ _ => Except.error (),
          reblogOk := fun _ => false, favOk := fun _ => false, followOk := fun _ => false }
        {} ["h1", "h2"]
        { processed_posts := [], liked_posts := [], followed_accounts := [],
          processed_file := FileState.missing, liked_file := FileState.missing,
          followed_file := FileState.missing } =
      check_new_posts
        { account_search := fun _ => none, account_statuses := fun _ _ _ => Except.error (),
          reblogOk := fun _ => false, favOk := fun _ => false, followOk := fun _ => false }
        {} ["h2"]
        { processed_posts := [], liked_posts := [], followed_accounts := [],
          processed_file := FileState.missing, liked_file := FileState.missing,
          followed_file := FileState.missing }) ∧
    (check_new_posts
        { account_search := fun _ => some "A1", account_statuses := fun _ _ _ => Except.error (),
          reblogOk := fun _ => true, favOk := fun _ => true, followOk := fun _ => true }
        {} ["h1", "h2"]
        { processed_posts := [], liked_posts := [], followed_accounts := [],
          processed_file := FileState.missing, liked_file := FileState.missing,
          followed_file := FileState.missing } =
      check_new_posts
        { account_search := fun _ => some "A1", account_statuses := fun _ _ _ => Except.error (),
          reblogOk := fun _ => true, favOk := fun _ => true, followOk := fun _ => true }
        {} ["h2"]
        { processed_posts := [], liked_posts := [], followed_accounts := [],
          processed_file := FileState.missing, liked_file := FileState.missing,
          followed_file := FileState.missing }) :=
  ⟨((remote_failure_isolated _ {} _ { id := "p" } { id := "f", acct := "f@x" } "h1" ["h2"]).1
      rfl).1,
   ((remote_failure_isolated _ {} _ { id := "p" } { id := "f", acct := "f@x" } "h1" ["h2"]).2.1
      rfl).1,
   (remote_failure_isolated _ {} _ { id := "p" } { id := "f", acct := "f@x" } "h1" ["h2"]).2.2.2.1
      rfl,
   (remote_failure_isolated _ {} _ { id := "p" } { id := "f", acct := "f@x" } "h1"
      ["h2"]).2.2.2.2 "A1" rfl rfl⟩

/-! ### C3: the like-phase quota -/

lemma favCount_append (a b : List Action) :
    favCount (a ++ b) = favCount a + favCount b := by
  simp [favCount, List.filter_append]

/-- With every favourite call succeeding, `_like_status` either likes the
status (one favourite in the trace) or skips a duplicate (empty trace). -/
lemma like_status_trace (env : Env) (st : BotState) (status : Status)
    (hfav : ∀ i, env.favOk i = true) :
    ((like_status env st status).2.1 = true ∧
      (like_status env st status).2.2 = [Action.favA status.id]) ∨
    ((like_status env st status).2.1 = false ∧
      (like_status env st status).2.2 = []) := by
  by_cases hmem : status.id ∈ st.liked_posts
  · right
    simp [like_status, hmem]
  · left
    simp [like_status, hmem, hfav]

/-- Loop invariant of the inner status loop of `check_likes`: the counter
grows exactly by the number of favourites appended to the trace, and never
exceeds the quota. -/
lemma check_likes_statuses_invariant (env : Env) (m : Nat) (rule : LikeRule)
    (hfav : ∀ i, env.favOk i = true) :
    ∀ (sts : List Status) (st : BotState) (c : Nat) (acts : List Action),
      (check_likes_statuses env m rule sts st c acts).2.1 + favCount acts =
        c + favCount (check_likes_statuses env m rule sts st c acts).2.2 ∧
      (c ≤ m → (check_likes_statuses env m rule sts st c acts).2.1 ≤ m) := by
  intro sts
  induction sts with
  | nil =>
      intro st c acts
      simp [check_likes_statuses]
  | cons status rest ih =>
      intro st c acts
      by_cases hlim : m ≤ c
      · simp [check_likes_statuses, hlim]
      · by_cases hsl : should_like status rule
        · rcases like_status_trace env st status hfav with ⟨h1, h2⟩ | ⟨h1, h2⟩
          · have hinv := ih (like_status env st status).1 (c + 1)
              (acts ++ [Action.favA status.id])
            rw [favCount_append] at hinv
            have hfc : favCount [Action.favA status.id] = 1 := rfl
            rw [hfc] at hinv
            simp only [check_likes_statuses, if_neg hlim, if_pos hsl, h1, h2, if_true]
            exact ⟨by omega, fun hcm => hinv.2 (by omega)⟩
          · have hinv := ih (like_status env st status).1 c (acts ++ [])
            rw [List.append_nil] at hinv
            simp only [check_likes_statuses, if_neg hlim, if_pos hsl, h1, h2, if_false,
              List.append_nil]
            exact hinv
        · simp only [check_likes_statuses, if_neg hlim, if_neg hsl]
          exact ih st c acts

/-- Loop invariant of the account loop of `check_likes`. -/
lemma check_likes_accounts_invariant (env : Env) (m : Nat)
    (hfav : ∀ i, env.favOk i = true) :
    ∀ (rules : List LikeRule) (st : BotState) (c : Nat) (acts : List Action),
      (check_likes_accounts env m rules st c acts).2.1 + favCount acts =
        c + favCount (check_likes_accounts env m rules st c acts).2.2 ∧
      (c ≤ m → (check_likes_accounts env m rules st c acts).2.1 ≤ m) := by
  intro rules
  induction rules with
  | nil =>
      intro st c acts
      simp [check_likes_accounts]
  | cons rule rest ih =>
      intro st c acts
      cases hsearch : env.account_search rule.account with
      | none =>
          simp only [check_likes_accounts, hsearch]
          exact ih st c acts
      | some account_id =>
          by_cases hlim : m ≤ c
          · simp [check_likes_accounts, hsearch, hlim]
          · cases hstat : env.account_statuses account_id rule.exclude_replies false with
            | error e =>
                simp only [check_likes_accounts, hsearch, if_neg hlim, hstat]
                exact ih st c acts
            | ok sts =>
                simp only [check_likes_accounts, hsearch, if_neg hlim, hstat]
                have hI := check_likes_statuses_invariant env m rule hfav sts st c acts
                have hO := ih (check_likes_statuses env m rule sts st c acts).1
                  (check_likes_statuses env m rule sts st c acts).2.1
                  (check_likes_statuses env m rule sts st c acts).2.2
                refine ⟨by omega, fun hcm => hO.2 (hI.2 hcm)⟩

def c3Env : Env :=
  { account_search := fun h =>
      if h == "alice@x" then some "101" else if h == "bob@x" then some "102" else none,
    account_statuses := fun account_id _ _ =>
      if account_id == "101" then Except.ok [{ id := "s1" }, { id := "s2" }]
      else if account_id == "102" then Except.ok [{ id := "s3" }]
      else Except.ok [],
    reblogOk := fun _ => true,
    favOk := fun _ => true,
    followOk := fun _ => true }

def c3Rule1 : LikeRule := { account := "alice@x", like_everything := true }

def c3Rule2 : LikeRule := { account := "bob@x", like_everything := true }

def c3State0 : BotState :=
  { processed_posts := [], liked_posts := [], followed_accounts := [],
    processed_file := FileState.missing, liked_file := FileState.missing,
    followed_file := FileState.missing }

/-- C3: in one like-phase pass with every favourite succeeding, the number
of favourite calls never exceeds `max_likes_per_check`; the quota counter
is a single cycle-scoped counter shared by all like-rule accounts, so with
quota 2 and three qualifying statuses spread over two accounts exactly two
favourites happen (`s1`, `s2`) and the third status `s3` is skipped. -/
theorem check_likes_quota :
    (∀ (env : Env) (m : Nat) (rules : List LikeRule) (st : BotState),
      (∀ i, env.favOk i = true) →
      favCount (check_likes env m rules st).2.2 ≤ m)
    ∧ check_likes c3Env 2 [c3Rule1, c3Rule2] c3State0 =
        ({ c3State0 with liked_posts := ["s2", "s1"],
                         liked_file := saveDedup "posts" ["s2", "s1"] }, 2,
          [Action.favA "s1", Action.favA "s2"])
    ∧ Action.favA "s3" ∉ (check_likes c3Env 2 [c3Rule1, c3Rule2] c3State0).2.2 := by
  refine ⟨?_, by rfl, by decide⟩
  intro env m rules st hfav
  unfold check_likes
  by_cases hempty : rules.isEmpty
  · simp [hempty, favCount]
  · rw [if_neg hempty]
    have h := check_likes_accounts_invariant env m hfav rules st 0 []
    have hz : favCount ([] : List Action) = 0 := rfl
    rw [hz] at h
    have := h.2 (Nat.zero_le m)
    omega

/-- Witness for the quota bound of `check_likes_quota` at the concrete
two-account scenario. -/
theorem check_likes_quota_witness :
    favCount (check_likes c3Env 2 [c3Rule1, c3Rule2] c3State0).2.2 ≤ 2 :=
  check_likes_quota.1 c3Env 2 [c3Rule1, c3Rule2] c3State0 (fun _ => rfl)

/-! ### C5 / C7: dedup-file persistence -/

lemma mapM_loop_hashable (ids : List String) (acc : List JScalar) :
    List.mapM.loop hashableElem (ids.map (fun s => JsonVal.scalar (JScalar.sstr s))) acc =
      Except.ok (acc.reverse ++ ids.map JScalar.sstr) := by
  induction ids generalizing acc with
  | nil =>
      have h1 : List.mapM.loop hashableElem
          (([] : List String).map (fun s => JsonVal.scalar (JScalar.sstr s))) acc =
            Except.ok acc.reverse := rfl
      rw [h1]
      simp
  | cons a l ih =>
      have h1 : List.mapM.loop hashableElem
          ((a :: l).map (fun s => JsonVal.scalar (JScalar.sstr s))) acc =
            List.mapM.loop hashableElem
              (l.map (fun s => JsonVal.scalar (JScalar.sstr s))) (JScalar.sstr a :: acc) := rfl
      rw [h1, ih]
      simp

lemma mapM_hashable (ids : List String) :
    (ids.map (fun s => JsonVal.scalar (JScalar.sstr s))).mapM hashableElem =
      Except.ok (ids.map JScalar.sstr) := by
  unfold List.mapM
  simpa using mapM_loop_hashable ids []

/-- Loading the file that `save` just wrote returns exactly the saved set of
string ids. -/
lemma loadDedup_saveDedup (key : String) (ids : List String) (prior : Finset JScalar) :
    loadDedup (saveDedup key ids) key prior =
      Except.ok ((ids.map JScalar.sstr).toFinset) := by
  have hget : dictGet
      (JsonVal.jobj [(key, JsonVal.jarr (ids.map (fun s => JsonVal.scalar (JScalar.sstr s))))])
      key (JsonVal.jarr []) =
        Except.ok (JsonVal.jarr (ids.map (fun s => JsonVal.scalar (JScalar.sstr s)))) := by
    unfold dictGet
    simp
  have hps : pySet (JsonVal.jarr (ids.map (fun s => JsonVal.scalar (JScalar.sstr s)))) =
      Except.ok ((ids.map JScalar.sstr).toFinset) := by
    show (match (ids.map (fun s => JsonVal.scalar (JScalar.sstr s))).mapM hashableElem with
      | Except.ok scalars => Except.ok scalars.toFinset
      | Except.error e => Except.error e) =
        Except.ok ((ids.map JScalar.sstr).toFinset)
    rw [mapM_hashable]
  show (match dictGet
      (JsonVal.jobj [(key, JsonVal.jarr (ids.map (fun s => JsonVal.scalar (JScalar.sstr s))))])
      key (JsonVal.jarr []) with
    | Except.ok arr => pySet arr
    | Except.error e => Except.error e) =
      Except.ok ((ids.map JScalar.sstr).toFinset)
  rw [hget]
  exact hps

/-- C5 counterexample: a dedup file whose text is valid JSON but not a JSON
object — here the JSON document `[]` — makes the loader raise
`AttributeError` (from `data.get` on a list), which is not caught: the
loaders catch only `json.JSONDecodeError`, so the claimed never-raises
guarantee fails. -/
theorem load_nonobject_raises :
    loadDedup (FileState.valid (JsonVal.jarr [])) "posts" ∅ =
      Except.error PyErr.attributeError := rfl

/-- C5 amended: when the dedup file is missing the in-memory set is left as
initialized (empty at startup), when its text fails JSON parsing the set
becomes empty without raising, and when it holds the well-formed
single-array-key object the array's entries are returned as a set; a file
holding valid JSON of any other shape is outside the soft-fail guarantee
and raises. -/
theorem load_failsoft_amended :
    (∀ (key : String) (prior : Finset JScalar),
      loadDedup FileState.missing key prior = Except.ok prior)
    ∧ (∀ (key : String) (prior : Finset JScalar),
      loadDedup FileState.invalid key prior = Except.ok ∅)
    ∧ (∀ (key : String) (ids : List String) (prior : Finset JScalar),
      loadDedup (saveDedup key ids) key prior =
        Except.ok ((ids.map JScalar.sstr).toFinset)) :=
  ⟨fun _ _ => rfl, fun _ _ => rfl, fun key ids prior => loadDedup_saveDedup key ids prior⟩

/-- C7: saving any set of string ids (its enumeration `ids`) and loading the
file back returns exactly that set — string ids are embedded injectively as
JSON strings, so the loaded set determines the saved one; the empty set is
the `ids = []` instance. -/
theorem dedup_roundtrip :
    (∀ (key : String) (ids : List String) (prior : Finset JScalar),
      loadDedup (saveDedup key ids) key prior =
        Except.ok ((ids.map JScalar.sstr).toFinset))
    ∧ Function.Injective JScalar.sstr := by
  refine ⟨fun key ids prior => loadDedup_saveDedup key ids prior, ?_⟩
  intro a b h
  injection h

/-- Witness for `load_failsoft_amended` at concrete files. -/
theorem load_failsoft_amended_witness :
    loadDedup FileState.missing "posts" ∅ = Except.ok ∅ ∧
    loadDedup FileState.invalid "posts" ∅ = Except.ok ∅ ∧
    loadDedup (saveDedup "posts" ["x1"]) "posts" ∅ =
      Except.ok ((["x1"].map JScalar.sstr).toFinset) :=
  ⟨load_failsoft_amended.1 "posts" ∅, load_failsoft_amended.2.1 "posts" ∅,
   load_failsoft_amended.2.2 "posts" ["x1"] ∅⟩

/-- Witness for `dedup_roundtrip` at a concrete two-element set. -/
theorem dedup_roundtrip_witness :
    loadDedup (saveDedup "accounts" ["a", "b"]) "accounts" ∅ =
      Except.ok ((["a", "b"].map JScalar.sstr).toFinset) ∧ "a" = "a" :=
  ⟨dedup_roundtrip.1 "accounts" ["a", "b"] ∅, dedup_roundtrip.2 rfl⟩

/-! ### C9: environment variables at startup -/

/-- C9 counterexample: with both environment variables unset and a config
file that stores an instance URL and the credential in both supported
forms, `_init_mastodon` raises `ValueError` instead of falling back to the
configuration file's credential — the stored token is never read by the
bot. -/
theorem init_mastodon_ignores_config_token :
    init_mastodon ⟨none, none⟩
      ⟨some ⟨some "https://cfg.example", some "plain-token", some "enc-token"⟩⟩ =
      Except.error () := rfl

/-- C9 amended: the instance URL may come from its environment variable,
which takes precedence over the configuration file, and falls back to
`mastodon.instance_url` (default `https://mastodon.social`) when the
variable is absent; the access credential, however, must come from its
environment variable — a truthy environment token is used regardless of the
configuration file, and an absent or empty one aborts startup no matter
what the configuration file stores. -/
theorem init_mastodon_env_precedence :
    (∀ (ev : EnvVars) (cfg : BotFileConfig) (t : String),
      ev.mastodon_access_token = some t → ¬t = "" →
      init_mastodon ev cfg = Except.ok (t, resolve_instance_url ev cfg))
    ∧ (∀ (ev : EnvVars) (cfg : BotFileConfig) (u : String),
      ev.mastodon_instance_url = some u → ¬u = "" →
      resolve_instance_url ev cfg = u)
    ∧ (∀ (ev : EnvVars) (cfg : BotFileConfig) (m : MastodonSection) (u : String),
      ev.mastodon_instance_url = none → cfg.mastodon = some m → m.instance_url = some u →
      resolve_instance_url ev cfg = u)
    ∧ (∀ (ev : EnvVars) (cfg : BotFileConfig),
      truthyStr ev.mastodon_access_token = false →
      init_mastodon ev cfg = Except.error ()) := by
  refine ⟨fun ev cfg t h1 h2 => ?_, fun ev cfg u h1 h2 => ?_,
    fun ev cfg m u h1 h2 h3 => ?_, fun ev cfg h => ?_⟩
  · unfold init_mastodon
    rw [h1]
    simp [h2]
  · unfold resolve_instance_url
    simp [h1, truthyStr, h2]
  · unfold resolve_instance_url
    simp [h1, h2, h3, truthyStr]
  · unfold init_mastodon
    cases hev : ev.mastodon_access_token with
    | none => rfl
    | some t =>
        rw [hev] at h
        have h2 : (!(t == "")) = false := h
        have ht : (t == "") = true := by simpa using h2
        simp [ht]

/-- Witness for `init_mastodon_env_precedence`: both variables set beat a
populated config file; with no URL variable the config URL wins; with no
token variable startup fails. -/
theorem init_mastodon_env_precedence_witness :
    init_mastodon ⟨some "env-token", some "https://env.example"⟩
        ⟨some ⟨some "https://cfg.example", none, some "enc-token"⟩⟩ =
      Except.ok ("env-token",
        resolve_instance_url ⟨some "env-token", some "https://env.example"⟩
          ⟨some ⟨some "https://cfg.example", none, some "enc-token"⟩⟩) ∧
    resolve_instance_url ⟨some "env-token", some "https://env.example"⟩
        ⟨some ⟨some "https://cfg.example", none, some "enc-token"⟩⟩ = "https://env.example" ∧
    resolve_instance_url ⟨some "env-token", none⟩
        ⟨some ⟨some "https://cfg.example", none, some "enc-token"⟩⟩ = "https://cfg.example" ∧
    init_mastodon ⟨none, some "https://env.example"⟩ ⟨none⟩ = Except.error () :=
  ⟨init_mastodon_env_precedence.1 ⟨some "env-token", some "https://env.example"⟩
      ⟨some ⟨some "https://cfg.example", none, some "enc-token"⟩⟩ "env-token" rfl (by decide),
   init_mastodon_env_precedence.2.1 ⟨some "env-token", some "https://env.example"⟩
      ⟨some ⟨some "https://cfg.example", none, some "enc-token"⟩⟩ "https://env.example"
      rfl (by decide),
   init_mastodon_env_precedence.2.2.1 ⟨some "env-token", none⟩
      ⟨some ⟨some "https://cfg.example", none, some "enc-token"⟩⟩
      ⟨some "https://cfg.example", none, some "enc-token"⟩ "https://cfg.example" rfl rfl rfl,
   init_mastodon_env_precedence.2.2.2 ⟨none, some "https://env.example"⟩ ⟨none⟩ rfl⟩

/-! ### C10: saving a new instance URL invalidates the token -/

/-- A successful save through the save-token route always writes
`token_valid = true`. -/
lemma save_token_sets_valid (validate : String → String → Bool) (encOk : Bool)
    (enc : String → String) (cfg cfg3 : WebConfig) (tok : String)
    (h : save_token validate encOk enc cfg tok = (cfg3, true)) :
    ∃ m3, cfg3.mastodon = some m3 ∧ m3.token_valid = some true := by
  unfold save_token at h
  split_ifs at h
  · exact absurd (congrArg Prod.snd h) (by simp)
  · exact absurd (congrArg Prod.snd h) (by simp)
  · exact absurd (congrArg Prod.snd h) (by simp)
  · have hc := (congrArg Prod.fst h).symm
    subst hc
    exact ⟨_, rfl, rfl⟩

/-- C10: every successful save through the save-instance route writes
`token_valid = false` into the `mastodon` section, after which the
account-list route — gated on a truthy instance URL and `token_valid` —
rejects every edit and leaves the configuration (watch-lists included)
unchanged; the gate reopens only once the save-token route succeeds, which
re-validates a token and sets `token_valid = true`. -/
theorem save_instance_invalidates_token :
    ∀ (cfg cfg2 : WebConfig) (u : String),
      save_instance cfg u = (cfg2, true) →
      (∃ m2, cfg2.mastodon = some m2 ∧ m2.token_valid = some false) ∧
      (∀ form, save_accounts cfg2 form = (cfg2, false)) ∧
      (∀ (validate : String → String → Bool) (enc : String → String) (tok : String)
        (cfg3 : WebConfig),
        save_token validate true enc cfg2 tok = (cfg3, true) →
        ∃ m3, cfg3.mastodon = some m3 ∧ m3.token_valid = some true) := by
  intro cfg cfg2 u h
  unfold save_instance at h
  by_cases hu : pyStrip u == ""
  · rw [if_pos hu] at h
    exact absurd (congrArg Prod.snd h) (by simp)
  · rw [if_neg hu] at h
    have hc := (congrArg Prod.fst h).symm
    subst hc
    refine ⟨⟨_, rfl, rfl⟩, fun form => ?_, fun validate enc tok cfg3 h3 => ?_⟩
    · unfold save_accounts
      simp [mastodonSection, truthyBool]
    · exact save_token_sets_valid validate true enc _ cfg3 tok h3

/-- Witness for `save_instance_invalidates_token` at the empty
configuration and a concrete instance URL. -/
theorem save_instance_invalidates_token_witness :
    (∃ m2, ({ mastodon := some { instance_url := some "https://i.example",
                                 token_valid := some false } } : WebConfig).mastodon =
        some m2 ∧ m2.token_valid = some false) ∧
    (∀ form,
      save_accounts
        { mastodon := some { instance_url := some "https://i.example",
                             token_valid := some false } } form =
      ({ mastodon := some { instance_url := some "https://i.example",
                            token_valid := some false } }, false)) ∧
    (∀ (validate : String → String → Bool) (enc : String → String) (tok : String)
      (cfg3 : WebConfig),
      save_token validate true enc
          { mastodon := some { instance_url := some "https://i.example",
                               token_valid := some false } } tok =
        (cfg3, true) →
      ∃ m3, cfg3.mastodon = some m3 ∧ m3.token_valid = some true) :=
  save_instance_invalidates_token {}
    { mastodon := some { instance_url := some "https://i.example",
                         token_valid := some false } }
    "https://i.example" (by rfl)

end MastodonBot
